import Mathlib

/-
Verification of the esphome dashboard-api client against its specification.

The library is a thin asynchronous client.  We embed it shallowly:

* decoded JSON payloads (the result of Python json decoding) become the
  inductive type `PyVal`; Python dictionaries are association lists with
  first-match lookup, which models unique-key dictionaries faithfully;
* the websocket transport of `stream_logs` is a list of incoming messages
  `WSMsg`; a text frame carries `Option PyVal` where `Option.none` stands
  for a frame whose body does not decode as JSON (so that calling the
  decoder on it raises), and `Option.some v` for a frame decoding to `v`;
* Python exceptions become the `Except` monad with error type `PyError`
  for runtime errors and `ReqError` for HTTP-layer errors;
* the side effects of a streaming session (the one control message sent,
  the sequence of sink invocations) are returned explicitly in the
  `StreamSession` record, in order of occurrence.

Integer-valued JSON numbers are modelled by `Int`; the claims under study
never involve floating point.
-/

namespace EsphomeDashboardApi

/-- A decoded JSON value as Python sees it: JSON null is the Python value
`None`, objects are dictionaries (association lists, unique keys, ordered). -/
inductive PyVal where
  | none
  | bool (b : Bool)
  | int (n : Int)
  | str (s : String)
  | list (elems : List PyVal)
  | dict (fields : List (String × PyVal))

/-- Python runtime errors that the embedded code can raise. -/
inductive PyError where
  | attributeError
  | keyError (key : String)
  | jsonDecodeError

/-- First-match lookup in a dictionary, the partial core of Python
subscription `d[k]` (raises `KeyError` when absent). -/
def lookupField : List (String × PyVal) → String → Option PyVal
  | [], _ => Option.none
  | (k, v) :: rest, key => if k = key then Option.some v else lookupField rest key

/-- Python `d.get(k)`: `None` when the key is absent, the stored value
otherwise; raises `AttributeError` when the receiver is not a dictionary. -/
def pyGet : PyVal → String → Except PyError PyVal
  | PyVal.dict fields, key => Except.ok ((lookupField fields key).getD PyVal.none)
  | _, _ => Except.error PyError.attributeError

/-- Python equality of a decoded value with a string literal: only an equal
string compares equal; every other value (including `None`) compares unequal. -/
def pyEqStr : PyVal → String → Bool
  | PyVal.str t, s => t == s
  | _, _ => false

/-- Python `v == 0`.  Python booleans are integers, so `False == 0` is true. -/
def pyEqZero : PyVal → Bool
  | PyVal.int n => n == 0
  | PyVal.bool b => b == false
  | _ => false

/-- Python truthiness of a decoded value. -/
def pyTruthy : PyVal → Bool
  | PyVal.none => false
  | PyVal.bool b => b
  | PyVal.int n => n != 0
  | PyVal.str s => s != ""
  | PyVal.list elems => !elems.isEmpty
  | PyVal.dict fields => !fields.isEmpty

/-- Is this value `None`? (Python `v is None`.) -/
def PyVal.isNone : PyVal → Bool
  | PyVal.none => true
  | _ => false

/-- Is this value a dictionary? -/
def PyVal.isDict : PyVal → Bool
  | PyVal.dict _ => true
  | _ => false

/-- Python dictionary insertion: an existing key keeps its position and is
overwritten, a fresh key is appended. -/
def dictInsert : List (String × PyVal) → String → PyVal → List (String × PyVal)
  | [], key, v => [(key, v)]
  | (k, w) :: rest, key, v =>
    if k = key then (key, v) :: rest else (k, w) :: dictInsert rest key v

/-- Python dictionary merge, as in a display with a double-star unpacking:
entries of `extra` are inserted into `base` left to right. -/
def dictMerge (base : List (String × PyVal)) : List (String × PyVal) → List (String × PyVal)
  | [] => base
  | (k, v) :: rest => dictMerge (dictInsert base k v) rest

/-- One message yielded by the websocket iterator: a text frame carrying a
body that decodes to the given JSON value (`Option.none` when the body is
not valid JSON, so that decoding it raises), or a frame of any other type. -/
inductive WSMsg where
  | text (decoded : Option PyVal)
  | nonText

/-- The receive loop of `stream_logs`, from the source: for each message,
a non-text frame returns `False`; otherwise the body is decoded
(`msg.json()`), the `event` field is read with `data.get`, an `exit` event
returns `code == 0` (subscription, so a missing `code` raises `KeyError`),
any event other than `line` logs and returns `False`, and a `line` event
invokes the callback with `data["data"]` when a callback was supplied
(the subscription is only evaluated in that case) and continues.
Exhausting the iterator (the server closed the session) returns `False`.
The result pairs the sequence of callback invocations, in order, with the
outcome (`Except.error` when the iteration raised). -/
def stream_logs_loop (cbPresent : Bool) : List WSMsg → List PyVal × Except PyError Bool
  | [] => ([], Except.ok false)
  | msg :: rest =>
    match msg with
    | WSMsg.nonText => ([], Except.ok false)
    | WSMsg.text Option.none => ([], Except.error PyError.jsonDecodeError)
    | WSMsg.text (Option.some data) =>
      match data with
      | PyVal.dict fields =>
        let event := (lookupField fields "event").getD PyVal.none
        if pyEqStr event "exit" then
          match lookupField fields "code" with
          | Option.none => ([], Except.error (PyError.keyError "code"))
          | Option.some code => ([], Except.ok (pyEqZero code))
        else if pyEqStr event "line" = false then
          ([], Except.ok false)
        else if cbPresent then
          match lookupField fields "data" with
          | Option.none => ([], Except.error (PyError.keyError "data"))
          | Option.some payload =>
            let r := stream_logs_loop cbPresent rest
            (payload :: r.1, r.2)
        else stream_logs_loop cbPresent rest
      | _ => ([], Except.error PyError.attributeError)

/-- The initial control message of a streaming session, the dictionary
display with key `type` bound to `spawn` followed by the unpacked `params`. -/
def spawn_message (params : List (String × PyVal)) : PyVal :=
  PyVal.dict (dictMerge [("type", PyVal.str "spawn")] params)

/-- Observable behaviour of one streaming session: the websocket endpoint
addressed, the client-to-server messages in order, the sink (callback)
invocations in order, and the outcome. -/
structure StreamSession where
  endpoint : String
  sent : List PyVal
  sink : List PyVal
  result : Except PyError Bool

/-- `stream_logs` from the source: connect to the path under the base url,
send the single spawn control message, then run the receive loop over the
incoming messages. -/
def stream_logs (url path : String) (params : List (String × PyVal))
    (cbPresent : Bool) (incoming : List WSMsg) : StreamSession :=
  { endpoint := url ++ "/" ++ path
  , sent := [spawn_message params]
  , sink := (stream_logs_loop cbPresent incoming).1
  , result := (stream_logs_loop cbPresent incoming).2 }

/-- `compile` from the source: a thin caller of `stream_logs`. -/
def compile (url configuration : String) (cbPresent : Bool)
    (incoming : List WSMsg) : StreamSession :=
  stream_logs url "compile" [("configuration", PyVal.str configuration)]
    cbPresent incoming

/-- `upload` from the source: a thin caller of `stream_logs`. -/
def upload (url configuration port : String) (cbPresent : Bool)
    (incoming : List WSMsg) : StreamSession :=
  stream_logs url "upload"
    [("configuration", PyVal.str configuration), ("port", PyVal.str port)]
    cbPresent incoming

/-- A server-pushed `line` event frame with the given payload. -/
def lineMsg (payload : PyVal) : WSMsg :=
  WSMsg.text (Option.some (PyVal.dict [("event", PyVal.str "line"), ("data", payload)]))

/-- A server-pushed `exit` event frame with the given integer code. -/
def exitMsg (code : Int) : WSMsg :=
  WSMsg.text (Option.some (PyVal.dict [("event", PyVal.str "exit"), ("code", PyVal.int code)]))

/-- A message that resolves the receive loop as soon as it is consumed,
whatever follows it: a non-text frame, an undecodable text frame, a
non-dictionary body, or a body whose `event` field is anything other than
the string `line` (so an `exit`, an unrecognized tag, or a missing tag). -/
def resolving : WSMsg → Bool
  | WSMsg.nonText => true
  | WSMsg.text Option.none => true
  | WSMsg.text (Option.some (PyVal.dict fields)) =>
    !pyEqStr ((lookupField fields "event").getD PyVal.none) "line"
  | WSMsg.text (Option.some _) => true

/-- HTTP-layer failures of the request layer. -/
inductive ReqError where
  | requestFailed (status : Nat) (path : String)
  | malformedResponse

/-- One HTTP response as the transport hands it back: a status code and a
body, `Option.none` when the body does not decode as structured data. -/
structure HttpResponse where
  status : Nat
  body : Option PyVal

/-- Modelled from the spec: `resp.raise_for_status()` belongs to the HTTP
transport collaborator, whose code is not part of this repository; per the
spec a non-2xx status fails with a condition carrying the status code and
the request path, and a 2xx status succeeds. -/
def raise_for_status (path : String) (resp : HttpResponse) : Except ReqError Unit :=
  if 200 ≤ resp.status ∧ resp.status ≤ 299 then Except.ok ()
  else Except.error (ReqError.requestFailed resp.status path)

/-- Modelled from the spec: `resp.json()` belongs to the HTTP transport
collaborator, whose code is not part of this repository; per the spec it
returns the decoded structured payload and fails with a malformed-response
condition when the body does not decode. -/
def response_json (resp : HttpResponse) : Except ReqError PyVal :=
  match resp.body with
  | Option.some v => Except.ok v
  | Option.none => Except.error ReqError.malformedResponse

/-- Observable behaviour of one request: the address used and the result. -/
structure RequestResult where
  target : String
  result : Except ReqError PyVal

/-- `request` from the source: address the path under the base url by plain
interpolation, raise for a bad status, then decode the body. -/
def request (url path : String) (resp : HttpResponse) : RequestResult :=
  { target := url ++ "/" ++ path
  , result :=
      match raise_for_status path resp with
      | Except.error e => Except.error e
      | Except.ok _ => response_json resp }

/-- `get_config` from the source: issue the `json-config` request and
suppress exactly a request failure with status 404 into an absent result;
re-raise every other failure. -/
def get_config (url : String) (resp : HttpResponse) : Except ReqError (Option PyVal) :=
  match (request url "json-config" resp).result with
  | Except.ok v => Except.ok (Option.some v)
  | Except.error (ReqError.requestFailed status p) =>
    if status = 404 then Except.ok Option.none
    else Except.error (ReqError.requestFailed status p)
  | Except.error e => Except.error e

/-- `get_encryption_key` from the source, applied to the result of
`get_config` (absent, or the decoded configuration document): return `None`
when the document is absent or falsy, then walk `api`, `encryption`, `key`
with `get`, returning `None` as soon as a level is `None`, and return the
final `get` verbatim. -/
def get_encryption_key (config : Option PyVal) : Except PyError PyVal :=
  match config with
  | Option.none => Except.ok PyVal.none
  | Option.some c =>
    if pyTruthy c = false then Except.ok PyVal.none
    else
      match pyGet c "api" with
      | Except.error e => Except.error e
      | Except.ok api =>
        if api.isNone then Except.ok PyVal.none
        else
          match pyGet api "encryption" with
          | Except.error e => Except.error e
          | Except.ok encryption =>
            if encryption.isNone then Except.ok PyVal.none
            else pyGet encryption "key"

theorem stream_logs_loop_line (cbPresent : Bool) (p : PyVal) (rest : List WSMsg) :
    stream_logs_loop cbPresent (lineMsg p :: rest) =
      ((if cbPresent then p :: (stream_logs_loop cbPresent rest).1
        else (stream_logs_loop cbPresent rest).1),
       (stream_logs_loop cbPresent rest).2) := by
  cases cbPresent <;> simp [stream_logs_loop, lineMsg, lookupField, pyEqStr]

theorem stream_logs_loop_lines (cbPresent : Bool) (ps : List PyVal) (rest : List WSMsg) :
    stream_logs_loop cbPresent (ps.map lineMsg ++ rest) =
      ((if cbPresent then ps ++ (stream_logs_loop cbPresent rest).1
        else (stream_logs_loop cbPresent rest).1),
       (stream_logs_loop cbPresent rest).2) := by
  induction ps with
  | nil => cases cbPresent <;> simp
  | cons p ps ih => cases cbPresent <;> simp_all [stream_logs_loop_line]

theorem stream_logs_loop_exit (cbPresent : Bool) (c : Int) (rest : List WSMsg) :
    stream_logs_loop cbPresent (exitMsg c :: rest) = ([], Except.ok (c == 0)) := by
  simp [stream_logs_loop, exitMsg, lookupField, pyEqStr, pyEqZero]

theorem stream_logs_loop_resolving (cbPresent : Bool) (m : WSMsg) (rest : List WSMsg)
    (h : resolving m = true) :
    stream_logs_loop cbPresent (m :: rest) = stream_logs_loop cbPresent [m] := by
  cases m with
  | nonText => rfl
  | text d =>
    cases d with
    | none => rfl
    | some v =>
      cases v with
      | dict fields =>
        have h' : pyEqStr ((lookupField fields "event").getD PyVal.none) "line" = false := by
          simpa [resolving] using h
        simp [stream_logs_loop, h']
      | none => rfl
      | bool b => rfl
      | int n => rfl
      | str s => rfl
      | list elems => rfl

/-- C1: for a session whose server messages are line frames with payloads
`ps` followed by one exit frame with integer code `c`, the sink receives
exactly `ps`, in arrival order (and nothing when no sink is supplied), and
the call returns success exactly when `c` is zero. -/
theorem C1_line_stream_then_exit (url path : String) (params : List (String × PyVal))
    (cbPresent : Bool) (ps : List PyVal) (c : Int) :
    (stream_logs url path params cbPresent (ps.map lineMsg ++ [exitMsg c])).sink
        = (if cbPresent then ps else []) ∧
    (stream_logs url path params cbPresent (ps.map lineMsg ++ [exitMsg c])).result
        = Except.ok (c == 0) := by
  constructor <;>
    simp [stream_logs, stream_logs_loop_lines, stream_logs_loop_exit]

theorem stream_logs_loop_resolving_sink (cbPresent : Bool) (m : WSMsg)
    (h : resolving m = true) : (stream_logs_loop cbPresent [m]).1 = [] := by
  cases m with
  | nonText => rfl
  | text d =>
    cases d with
    | none => rfl
    | some v =>
      cases v with
      | dict fields =>
        have h' : pyEqStr ((lookupField fields "event").getD PyVal.none) "line" = false := by
          simpa [resolving] using h
        cases hE : pyEqStr ((lookupField fields "event").getD PyVal.none) "exit" with
        | false => simp [stream_logs_loop, h', hE]
        | true =>
          cases hC : lookupField fields "code" with
          | none => simp [stream_logs_loop, h', hE, hC]
          | some code => simp [stream_logs_loop, h', hE, hC]
      | none => rfl
      | bool b => rfl
      | int n => rfl
      | str s => rfl
      | list elems => rfl

/-- C2: after any run of line frames, each abnormal termination resolves the
outcome to failure, never success: a non-text frame, a text event whose tag
is neither line nor exit, and closure of the transport without any exit
event. -/
theorem C2_abnormal_termination_fails (url path : String) (params : List (String × PyVal))
    (cbPresent : Bool) (ps : List PyVal) (t : String) (fields : List (String × PyVal)) :
    (stream_logs url path params cbPresent (ps.map lineMsg ++ [WSMsg.nonText])).result
        = Except.ok false ∧
    (t ≠ "line" → t ≠ "exit" →
      (stream_logs url path params cbPresent
        (ps.map lineMsg ++
          [WSMsg.text (Option.some (PyVal.dict (("event", PyVal.str t) :: fields)))])).result
        = Except.ok false) ∧
    (stream_logs url path params cbPresent (ps.map lineMsg)).result = Except.ok false := by
  refine ⟨?_, ?_, ?_⟩
  · simp [stream_logs, stream_logs_loop_lines, stream_logs_loop]
  · intro h1 h2
    simp [stream_logs, stream_logs_loop_lines, stream_logs_loop, lookupField, pyEqStr, h1, h2]
  · have h := stream_logs_loop_lines cbPresent ps []
    simp [stream_logs_loop] at h
    simp [stream_logs, h]

theorem C2_abnormal_termination_fails_witness :
    (stream_logs "u" "compile" [] true
      ([PyVal.str "x"].map lineMsg ++
        [WSMsg.text (Option.some (PyVal.dict [("event", PyVal.str "weird")]))])).result
      = Except.ok false :=
  (C2_abnormal_termination_fails "u" "compile" [] true [PyVal.str "x"] "weird" []).2.1
    (by decide) (by decide)

/-- C7: the sink is invoked exactly once per line frame preceding the
resolving message, in exact arrival order, and once a resolving message is
consumed the whole session is as if every later buffered message were
absent, so none of them reaches the sink. -/
theorem C7_sink_order_and_resolution (url path : String) (params : List (String × PyVal))
    (cbPresent : Bool) (ps : List PyVal) (m : WSMsg) (rest : List WSMsg)
    (h : resolving m = true) :
    stream_logs url path params cbPresent (ps.map lineMsg ++ m :: rest)
        = stream_logs url path params cbPresent (ps.map lineMsg ++ [m]) ∧
    (stream_logs url path params cbPresent (ps.map lineMsg ++ m :: rest)).sink
        = (if cbPresent then ps else []) := by
  have hm := stream_logs_loop_resolving cbPresent m rest h
  have hs := stream_logs_loop_resolving_sink cbPresent m h
  constructor
  · simp [stream_logs, stream_logs_loop_lines, hm]
  · simp [stream_logs, stream_logs_loop_lines, hm, hs]

theorem C7_sink_order_and_resolution_witness :
    stream_logs "u" "upload" [] true
        ([PyVal.str "x"].map lineMsg ++ WSMsg.nonText :: [lineMsg (PyVal.str "y")])
      = stream_logs "u" "upload" [] true ([PyVal.str "x"].map lineMsg ++ [WSMsg.nonText]) :=
  (C7_sink_order_and_resolution "u" "upload" [] true [PyVal.str "x"]
    WSMsg.nonText [lineMsg (PyVal.str "y")] rfl).1

/-- C9: a text frame that decodes to a mapping with no event field does not
make the loop raise: it is handled as an unrecognized event, the session
resolves to failure, and the sink receives only the earlier line payloads. -/
theorem C9_missing_event_tag (url path : String) (params : List (String × PyVal))
    (cbPresent : Bool) (ps : List PyVal) (fields : List (String × PyVal))
    (rest : List WSMsg) (h : lookupField fields "event" = Option.none) :
    (stream_logs url path params cbPresent
        (ps.map lineMsg ++ WSMsg.text (Option.some (PyVal.dict fields)) :: rest)).result
        = Except.ok false ∧
    (stream_logs url path params cbPresent
        (ps.map lineMsg ++ WSMsg.text (Option.some (PyVal.dict fields)) :: rest)).sink
        = (if cbPresent then ps else []) := by
  constructor <;>
    simp [stream_logs, stream_logs_loop_lines, stream_logs_loop, h, pyEqStr]

theorem C9_missing_event_tag_witness :
    (stream_logs "u" "compile" [] true
        ([].map lineMsg ++ WSMsg.text (Option.some (PyVal.dict [("data", PyVal.str "x")])) :: [])).result
      = Except.ok false :=
  (C9_missing_event_tag "u" "compile" [] true [] [("data", PyVal.str "x")] [] rfl).1

/-- C3 counterexample: a streamed text frame whose body does not decode as
JSON makes the session raise a decoding error to the caller instead of
folding it into a failure outcome. -/
theorem C3_counterexample :
    (stream_logs "u" "compile" [] true [WSMsg.text Option.none]).result
      = Except.error PyError.jsonDecodeError := rfl

/-- C3 amended: a non-text frame and a decoded mapping with an unexpected
tag are folded into a failure outcome, but an undecodable text frame, a
body that is not a mapping, an exit event without a code field, and, when a
sink is supplied, a line event without a data field, each raise to the
caller. -/
theorem C3_amended_deviation_behaviour (url path : String) (params : List (String × PyVal))
    (cbPresent : Bool) (rest : List WSMsg) (t s : String) (fields : List (String × PyVal)) :
    (stream_logs url path params cbPresent (WSMsg.nonText :: rest)).result = Except.ok false ∧
    (t ≠ "line" → t ≠ "exit" →
      (stream_logs url path params cbPresent
        (WSMsg.text (Option.some (PyVal.dict (("event", PyVal.str t) :: fields))) :: rest)).result
        = Except.ok false) ∧
    (stream_logs url path params cbPresent (WSMsg.text Option.none :: rest)).result
        = Except.error PyError.jsonDecodeError ∧
    (stream_logs url path params cbPresent (WSMsg.text (Option.some (PyVal.str s)) :: rest)).result
        = Except.error PyError.attributeError ∧
    (lookupField fields "code" = Option.none →
      (stream_logs url path params cbPresent
        (WSMsg.text (Option.some (PyVal.dict (("event", PyVal.str "exit") :: fields))) :: rest)).result
        = Except.error (PyError.keyError "code")) ∧
    (lookupField fields "data" = Option.none →
      (stream_logs url path params true
        (WSMsg.text (Option.some (PyVal.dict (("event", PyVal.str "line") :: fields))) :: rest)).result
        = Except.error (PyError.keyError "data")) := by
  refine ⟨?_, ?_, ?_, ?_, ?_, ?_⟩
  · simp [stream_logs, stream_logs_loop]
  · intro h1 h2
    simp [stream_logs, stream_logs_loop, lookupField, pyEqStr, h1, h2]
  · simp [stream_logs, stream_logs_loop]
  · simp [stream_logs, stream_logs_loop]
  · intro h
    simp [stream_logs, stream_logs_loop, lookupField, pyEqStr, h]
  · intro h
    simp [stream_logs, stream_logs_loop, lookupField, pyEqStr, h]

theorem C3_amended_deviation_behaviour_witness :
    (stream_logs "u" "c" [] true
        [WSMsg.text (Option.some (PyVal.dict [("event", PyVal.str "weird")]))]).result
      = Except.ok false ∧
    (stream_logs "u" "c" [] true
        [WSMsg.text (Option.some (PyVal.dict [("event", PyVal.str "exit")]))]).result
      = Except.error (PyError.keyError "code") ∧
    (stream_logs "u" "c" [] true
        [WSMsg.text (Option.some (PyVal.dict [("event", PyVal.str "line")]))]).result
      = Except.error (PyError.keyError "data") :=
  ⟨(C3_amended_deviation_behaviour "u" "c" [] true [] "weird" "s" []).2.1
      (by decide) (by decide),
   (C3_amended_deviation_behaviour "u" "c" [] true [] "x" "s" []).2.2.2.2.1 rfl,
   (C3_amended_deviation_behaviour "u" "c" [] true [] "x" "s" []).2.2.2.2.2 rfl⟩

/-- C6: every session sends exactly the one spawn control message formed
from the parameters, whatever the server sends back, and compile and upload
are exactly the corresponding stream_logs calls. -/
theorem C6_spawn_and_thin_wrappers (url path configuration port : String)
    (params : List (String × PyVal)) (cbPresent : Bool) (incoming : List WSMsg) :
    (stream_logs url path params cbPresent incoming).sent = [spawn_message params] ∧
    compile url configuration cbPresent incoming
      = stream_logs url "compile" [("configuration", PyVal.str configuration)]
          cbPresent incoming ∧
    upload url configuration port cbPresent incoming
      = stream_logs url "upload"
          [("configuration", PyVal.str configuration), ("port", PyVal.str port)]
          cbPresent incoming :=
  ⟨rfl, rfl, rfl⟩

/-- C8: request addresses exactly the concatenation of base, slash and path
with no normalization; a non-2xx status fails with the request-failed
condition carrying the status and path; a 2xx status returns the decoded
body, or fails with the malformed-response condition when the body does not
decode. -/
theorem C8_request_behaviour (url path : String) (resp : HttpResponse) :
    (request url path resp).target = url ++ "/" ++ path ∧
    (¬ (200 ≤ resp.status ∧ resp.status ≤ 299) →
      (request url path resp).result
        = Except.error (ReqError.requestFailed resp.status path)) ∧
    (∀ v, (200 ≤ resp.status ∧ resp.status ≤ 299) → resp.body = Option.some v →
      (request url path resp).result = Except.ok v) ∧
    ((200 ≤ resp.status ∧ resp.status ≤ 299) → resp.body = Option.none →
      (request url path resp).result = Except.error ReqError.malformedResponse) := by
  refine ⟨rfl, ?_, ?_, ?_⟩
  · intro h
    simp [request, raise_for_status, h]
  · intro v h hb
    simp [request, raise_for_status, response_json, h, hb]
  · intro h hb
    simp [request, raise_for_status, response_json, h, hb]

theorem C8_request_behaviour_witness :
    (request "http://h" "devices" (HttpResponse.mk 500 Option.none)).result
      = Except.error (ReqError.requestFailed 500 "devices") ∧
    (request "http://h" "devices"
        (HttpResponse.mk 200 (Option.some (PyVal.dict [])))).result
      = Except.ok (PyVal.dict []) :=
  ⟨(C8_request_behaviour "http://h" "devices" (HttpResponse.mk 500 Option.none)).2.1
      (by decide),
   (C8_request_behaviour "http://h" "devices"
      (HttpResponse.mk 200 (Option.some (PyVal.dict [])))).2.2.1
      (PyVal.dict []) (by decide) rfl⟩

/-- C5: get_config suppresses exactly the 404 request failure into an
absent result; any other non-2xx status propagates as the request-failed
condition, a malformed 2xx body propagates as the malformed-response
condition, and a decodable 2xx body is returned as the document. -/
theorem C5_get_config_behaviour (url : String) (resp : HttpResponse) :
    (resp.status = 404 → get_config url resp = Except.ok Option.none) ∧
    (¬ (200 ≤ resp.status ∧ resp.status ≤ 299) → resp.status ≠ 404 →
      get_config url resp
        = Except.error (ReqError.requestFailed resp.status "json-config")) ∧
    ((200 ≤ resp.status ∧ resp.status ≤ 299) → resp.body = Option.none →
      get_config url resp = Except.error ReqError.malformedResponse) ∧
    (∀ v, (200 ≤ resp.status ∧ resp.status ≤ 299) → resp.body = Option.some v →
      get_config url resp = Except.ok (Option.some v)) := by
  refine ⟨?_, ?_, ?_, ?_⟩
  · intro h
    simp [get_config, request, raise_for_status, response_json, h]
  · intro h1 h2
    simp [get_config, request, raise_for_status, response_json, h1, h2]
  · intro h hb
    simp [get_config, request, raise_for_status, response_json, h, hb]
  · intro v h hb
    simp [get_config, request, raise_for_status, response_json, h, hb]

theorem C5_get_config_behaviour_witness :
    get_config "http://h" (HttpResponse.mk 404 Option.none) = Except.ok Option.none ∧
    get_config "http://h" (HttpResponse.mk 500 Option.none)
      = Except.error (ReqError.requestFailed 500 "json-config") :=
  ⟨(C5_get_config_behaviour "http://h" (HttpResponse.mk 404 Option.none)).1 rfl,
   (C5_get_config_behaviour "http://h" (HttpResponse.mk 500 Option.none)).2.1
      (by decide) (by decide)⟩

/-- C4: on a configuration document, get_encryption_key returns an absent
key without raising whenever the api level is missing or null, or the
encryption level is missing or null, and when both levels are mappings it
returns the stored key verbatim (absent only when missing or null there),
so an empty-string key is returned as the empty string. -/
theorem C4_get_encryption_key_path (fs : List (String × PyVal)) :
    ((lookupField fs "api").getD PyVal.none = PyVal.none →
      get_encryption_key (Option.some (PyVal.dict fs)) = Except.ok PyVal.none) ∧
    (∀ afs, lookupField fs "api" = Option.some (PyVal.dict afs) →
      (lookupField afs "encryption").getD PyVal.none = PyVal.none →
      get_encryption_key (Option.some (PyVal.dict fs)) = Except.ok PyVal.none) ∧
    (∀ afs efs, lookupField fs "api" = Option.some (PyVal.dict afs) →
      lookupField afs "encryption" = Option.some (PyVal.dict efs) →
      get_encryption_key (Option.some (PyVal.dict fs))
        = Except.ok ((lookupField efs "key").getD PyVal.none)) ∧
    get_encryption_key (Option.some (PyVal.dict
        [("api", PyVal.dict [("encryption", PyVal.dict [("key", PyVal.str "")])])]))
      = Except.ok (PyVal.str "") := by
  refine ⟨?_, ?_, ?_, rfl⟩
  · intro h
    cases fs with
    | nil => rfl
    | cons kv fs' =>
      simp [get_encryption_key, pyTruthy, pyGet, h, PyVal.isNone]
  · intro afs h1 h2
    cases fs with
    | nil => simp [lookupField] at h1
    | cons kv fs' =>
      simp [get_encryption_key, pyTruthy, pyGet, h1, h2, PyVal.isNone]
  · intro afs efs h1 h2
    cases fs with
    | nil => simp [lookupField] at h1
    | cons kv fs' =>
      simp [get_encryption_key, pyTruthy, pyGet, h1, h2, PyVal.isNone]

theorem C4_get_encryption_key_path_witness :
    get_encryption_key (Option.some (PyVal.dict [("api", PyVal.none)]))
      = Except.ok PyVal.none ∧
    get_encryption_key (Option.some (PyVal.dict
        [("api", PyVal.dict [("encryption", PyVal.dict [("key", PyVal.str "")])])]))
      = Except.ok (PyVal.str "") :=
  ⟨(C4_get_encryption_key_path [("api", PyVal.none)]).1 rfl,
   (C4_get_encryption_key_path
      [("api", PyVal.dict [("encryption", PyVal.dict [("key", PyVal.str "")])])]).2.2.1
      [("encryption", PyVal.dict [("key", PyVal.str "")])]
      [("key", PyVal.str "")] rfl rfl⟩

/-- C10: when the api level (or the encryption level) of the document is
present, non-null and not a mapping, get_encryption_key raises an attribute
error instead of returning an absent key, so the never-raises guarantee
needs each present level along the path to be null or a mapping. -/
theorem C10_non_mapping_level_raises (fs : List (String × PyVal)) :
    (∀ a, lookupField fs "api" = Option.some a → a.isNone = false → a.isDict = false →
      get_encryption_key (Option.some (PyVal.dict fs))
        = Except.error PyError.attributeError) ∧
    (∀ afs e, lookupField fs "api" = Option.some (PyVal.dict afs) →
      lookupField afs "encryption" = Option.some e → e.isNone = false → e.isDict = false →
      get_encryption_key (Option.some (PyVal.dict fs))
        = Except.error PyError.attributeError) := by
  constructor
  · intro a h1 h2 h3
    cases fs with
    | nil => simp [lookupField] at h1
    | cons kv fs' =>
      cases a <;>
        simp_all [get_encryption_key, pyTruthy, pyGet, PyVal.isNone, PyVal.isDict]
  · intro afs e h1 h2 h3 h4
    cases fs with
    | nil => simp [lookupField] at h1
    | cons kv fs' =>
      cases e <;>
        simp_all [get_encryption_key, pyTruthy, pyGet, PyVal.isNone, PyVal.isDict]

theorem C10_non_mapping_level_raises_witness :
    get_encryption_key (Option.some (PyVal.dict [("api", PyVal.str "x")]))
      = Except.error PyError.attributeError :=
  (C10_non_mapping_level_raises [("api", PyVal.str "x")]).1 (PyVal.str "x") rfl rfl rfl

end EsphomeDashboardApi
